import Mathlib

/-!
Verification of the bounded-concurrency prediction/caching and rule-based
optimization pipeline of the greentech repository
(`ai-engine/src/prediction/prediction_service.py`,
`ai-engine/src/optimization/optimization_service.py`,
`ai-engine/src/models/optimization_model.py`).

The Python code is shallowly embedded: dictionaries become association
lists, floats become exact rationals, `time.time()` readings become
explicit rational parameters, exceptions become `Except String`, and the
asyncio event loop's completion order becomes an explicit schedule
(a permutation of task indices).  Every definition mirrors one Python
function; docstrings name the mirrored source location.
-/

/-- JSON-like values stored in the Python dictionaries handled by the
services (sensor readings, prediction results, templates). -/
inductive Value where
  | vNum (q : ℚ)
  | vStr (s : String)
  | vBool (b : Bool)
  | vNull
  | vList (xs : List Value)
  | vDict (d : List (String × Value))

/-- A Python `dict` with string keys, modelled as an association list in
insertion order (Python dicts preserve insertion order and have no
duplicate keys). -/
abbrev Dict := List (String × Value)

/-- Lookup of `d[k]` as an `Option`; `none` models a `KeyError`. -/
def dictFind (d : Dict) (k : String) : Option Value :=
  (d.find? (fun p => p.1 == k)).map (fun p => p.2)

/-- Python `d.get(k, default)`. -/
def pyGet (d : Dict) (k : String) (default : Value) : Value :=
  (dictFind d k).getD default

/-- Python `k in d`. -/
def hasKey (d : Dict) (k : String) : Bool :=
  (dictFind d k).isSome

/-- Python `d[k] = v`: replaces the value in place if the key exists
(keeping its position), otherwise appends the new binding. -/
def dinsert (d : Dict) (k : String) (v : Value) : Dict :=
  if hasKey d k then d.map (fun p => if p.1 == k then (k, v) else p)
  else d ++ [(k, v)]

/-- A Python dict literal `{k1: v1, ..., kn: vn}` (possibly with splats):
later bindings overwrite earlier ones. -/
def dictLit (pairs : List (String × Value)) : Dict :=
  pairs.foldl (fun d p => dinsert d p.1 p.2) []

/-- Reading a value as a number; a non-numeric operand models a Python
`TypeError` in the arithmetic that follows. -/
def pyNum : Value → Except String ℚ
  | .vNum q => .ok q
  | _ => .error "TypeError: unsupported operand type"

/-- A numeric map, used for recommendation impact maps
(`rec['impact']`), whose values are numbers throughout the source. -/
abbrev NDict := List (String × ℚ)

/-- Python `m.get(k, default)` on a numeric map. -/
def nget (m : NDict) (k : String) (default : ℚ) : ℚ :=
  ((m.find? (fun p => p.1 == k)).map (fun p => p.2)).getD default

/-! ### Cache keys (prediction_service.py, lines 76, 122, 168)

Each prediction kind builds
`f"{kind}_{hash(json.dumps(sensor_data, sort_keys=True))}"`.
`json.dumps(..., sort_keys=True)` serializes the mapping with its keys in
sorted order, so it is a function of the key-sorted association list;
`hash` is a fixed function of that string for the lifetime of the
process.  We model the composition `hash ∘ json.dumps ∘ sort_keys` as an
arbitrary function `h` from the key-sorted association list to `Int`, and
the resulting Python `str` as its list of characters. -/

/-- Key order on dict entries: compare the string keys. -/
def keyLE (a b : String × Value) : Prop := a.1 ≤ b.1

instance : DecidableRel keyLE := fun a b => inferInstanceAs (Decidable (a.1 ≤ b.1))

instance : IsTotal (String × Value) keyLE := ⟨fun a b => le_total a.1 b.1⟩

instance : IsTrans (String × Value) keyLE := ⟨fun _ _ _ h h2 => le_trans h h2⟩

/-- The key-sorted association list underlying
`json.dumps(d, sort_keys=True)` (a stable sort by key, matching the
serialization order of the dict entries). -/
def sortByKeys (d : Dict) : Dict := List.insertionSort keyLE d

/-- The cache key `f"{kind}_{hash(json.dumps(data, sort_keys=True))}"`
(as its character list), for kind tag `kind` (one of `"efficiency_"`,
`"maintenance_"`, `"energy_"`) and per-process hash function `h`. -/
def cacheKey (h : Dict → Int) (kind : String) (d : Dict) : List Char :=
  kind.data ++ (toString (h (sortByKeys d))).data

/-! ### CarbonCaptureOptimizer (optimization_model.py)

The trained estimator together with `preprocess_data` and
`model.predict` is the Estimator Facade: an external, already-fitted
object.  We model it as a function from the sensor reading to the
predicted float.  The dictionary `self.models` keyed by target name is
modelled as an association list from target name to facade. -/

/-- An Estimator Facade: `self.models[name].predict(preprocess(x))[0]`. -/
abbrev EstimatorFacade := Dict → ℚ

/-- Reading `sensor_data.get(k, default)` as a number (Python raises
`TypeError` in the comparison/arithmetic if the value is not numeric). -/
def getNumE (d : Dict) (k : String) (default : ℚ) : Except String ℚ :=
  pyNum (pyGet d k (.vNum default))

/-- One entry of `_generate_efficiency_suggestions` (lines 493-531 of
optimization_model.py): a suggestion dict. -/
def mkSuggestion (title descr : String) (co2 energy : ℚ) (priority : String) : Value :=
  .vDict [("type", .vStr "efficiency"), ("title", .vStr title),
          ("description", .vStr descr),
          ("impact", .vDict [("co2Increase", .vNum co2), ("energySavings", .vNum energy)]),
          ("priority", .vStr priority)]

/-- `CarbonCaptureOptimizer._generate_efficiency_suggestions`
(optimization_model.py lines 486-533). -/
def generate_efficiency_suggestions (sensor : Dict) : Except String (List Value) := do
  let temperature ← getNumE sensor "temperature" 25
  let s1 := if temperature > 30 then
      [mkSuggestion "Temperature Optimization"
        ("Reduce operating temperature from " ++ toString temperature ++ "°C to 25°C")
        (52/10) (255/10) (if temperature > 35 then "high" else "medium")]
    else []
  let pressure ← getNumE sensor "pressure" 50
  let s2 := if pressure > 60 then
      [mkSuggestion "Pressure Optimization"
        ("Optimize pressure settings from " ++ toString pressure ++ " psi to 45-50 psi")
        (31/10) (187/10) "medium"]
    else []
  let flow_rate ← getNumE sensor "flow_rate" 1000
  let s3 := if flow_rate > 1500 then
      [mkSuggestion "Flow Rate Optimization"
        ("Reduce flow rate from " ++ toString flow_rate ++ " L/min to optimal range")
        (28/10) (153/10) "low"]
    else []
  return s1 ++ s2 ++ s3

/-- `CarbonCaptureOptimizer._calculate_confidence_score`
(optimization_model.py lines 621-634): data-completeness score over the
required fields, optionally scaled by `data_quality`. -/
def calculate_confidence_score (sensor : Dict) : Except String ℚ := do
  let required := ["temperature", "pressure", "flow_rate", "energy_consumption"]
  let available : ℚ :=
    (required.filter (fun f =>
      hasKey sensor f && !(pyGet sensor f .vNull matches Value.vNull))).length
  let base := available / required.length
  let base ← if hasKey sensor "data_quality" then do
      let quality ← pyNum (pyGet sensor "data_quality" .vNull)
      pure (base * (quality / 100))
    else pure base
  return min base 1

/-- `CarbonCaptureOptimizer.predict_efficiency` (optimization_model.py
lines 346-387).  `models` is the `self.models` registry; `now` stands
for `datetime.now().isoformat()`.  If no estimator has been trained for
`'efficiency'` the method raises
`ValueError("Efficiency model not trained. Please train the model
first.")`, which the wrapping `except` clause re-raises. -/
def optimizerPredictEfficiency (models : List (String × EstimatorFacade)) (now : String)
    (sensor : Dict) : Except String Dict := do
  match models.find? (fun p => p.1 == "efficiency") with
  | none => .error "ValueError: Efficiency model not trained. Please train the model first."
  | some (_, m) =>
    let prediction := m sensor
    let suggestions ← generate_efficiency_suggestions sensor
    let confidence ← calculate_confidence_score sensor
    return [("predicted_efficiency", .vNum prediction),
            ("current_efficiency", pyGet sensor "efficiency_current" (.vNum 0)),
            ("optimization_suggestions", .vList suggestions),
            ("model_version", .vStr "1.0.0"),
            ("confidence_score", .vNum confidence),
            ("timestamp", .vStr now)]

/-- One maintenance alert dict
(`_generate_maintenance_alerts`, optimization_model.py lines 535-581). -/
def mkAlert (alertType msg : String) (probability : ℚ) (severity : String) : Value :=
  .vDict [("alertType", .vStr alertType), ("message", .vStr msg),
          ("probability", .vNum probability), ("severity", .vStr severity)]

/-- `CarbonCaptureOptimizer._generate_maintenance_alerts`
(optimization_model.py lines 535-581). -/
def generate_maintenance_alerts (sensor : Dict) (maintenance_score : ℚ) :
    Except String (List Value) := do
  let a1 :=
    if maintenance_score > 8/10 then
      [mkAlert "critical" "Immediate maintenance required - high failure risk detected"
        maintenance_score "critical"]
    else if maintenance_score > 6/10 then
      [mkAlert "warning" "Maintenance recommended within next 7 days" maintenance_score "high"]
    else if maintenance_score > 4/10 then
      [mkAlert "info" "Schedule maintenance check within next 30 days" maintenance_score "medium"]
    else []
  let vibration ← getNumE sensor "vibration" 0
  let a2 := if vibration > 3 then
      [mkAlert "warning" "Elevated vibration levels detected - motor inspection recommended"
        (7/10) "medium"]
    else []
  let motor_current ← getNumE sensor "motor_current" 0
  let a3 := if motor_current > 20 then
      [mkAlert "warning" "High motor current detected - electrical system check recommended"
        (6/10) "medium"]
    else []
  return a1 ++ a2 ++ a3

/-- `CarbonCaptureOptimizer._calculate_next_maintenance`
(optimization_model.py lines 583-608).  Dates are modelled as rational
day counts relative to the epoch; `now_days` stands for
`datetime.now()` and the result for `now + timedelta(days=...)`. -/
def calculate_next_maintenance (now_days : ℚ) (sensor : Dict) (maintenance_score : ℚ) :
    Except String ℚ := do
  let days0 : ℚ :=
    if maintenance_score > 8/10 then 7
    else if maintenance_score > 6/10 then 14
    else if maintenance_score > 4/10 then 30
    else 90
  let unit_age ← getNumE sensor "unit_age_days" 0
  let days1 := if unit_age > 1000 then max (days0 * (7/10)) 7 else days0
  let days_since ← getNumE sensor "maintenance_days_since" 0
  let days2 := if days_since < 30 then max days1 60 else days1
  return now_days + days2

/-- `CarbonCaptureOptimizer._calculate_risk_level`
(optimization_model.py lines 610-619). -/
def calculate_risk_level (maintenance_score : ℚ) : String :=
  if maintenance_score > 8/10 then "critical"
  else if maintenance_score > 6/10 then "high"
  else if maintenance_score > 4/10 then "medium"
  else "low"

/-- `CarbonCaptureOptimizer.predict_maintenance` (optimization_model.py
lines 389-433).  If no estimator has been trained for `'maintenance'`
the method raises `ValueError("Maintenance model not trained. Please
train the model first.")`, re-raised by the wrapping `except` clause. -/
def optimizerPredictMaintenance (models : List (String × EstimatorFacade)) (now : String)
    (now_days : ℚ) (sensor : Dict) : Except String Dict := do
  match models.find? (fun p => p.1 == "maintenance") with
  | none => .error "ValueError: Maintenance model not trained. Please train the model first."
  | some (_, m) =>
    let maintenance_score := m sensor
    let alerts ← generate_maintenance_alerts sensor maintenance_score
    let next_maintenance ← calculate_next_maintenance now_days sensor maintenance_score
    return [("maintenance_score", .vNum maintenance_score),
            ("alerts", .vList alerts),
            ("next_maintenance_date", .vNum next_maintenance),
            ("risk_level", .vStr (calculate_risk_level maintenance_score)),
            ("model_version", .vStr "1.0.0"),
            ("timestamp", .vStr now)]

/-- `CarbonCaptureOptimizer.optimize_energy_usage` (optimization_model.py
lines 435-484).  `current_energy = operational_data.get('energy_consumption', 0)`;
`optimization_potential = (energy_savings / current_energy) * 100`
raises `ZeroDivisionError` when `current_energy` is zero (in particular
when the field is absent, since the substituted default is `0`). -/
def optimize_energy_usage (now : String) (operational_data : Dict) : Except String Dict := do
  let current_energy ← pyNum (pyGet operational_data "energy_consumption" (.vNum 0))
  let renewable_capacity ← pyNum (pyGet operational_data "renewable_capacity" (.vNum 0))
  let grid_cost ← pyNum (pyGet operational_data "grid_cost_per_kwh" (.vNum (12/100)))
  let renewable_cost ← pyNum (pyGet operational_data "renewable_cost_per_kwh" (.vNum (8/100)))
  let max_renewable_usage := min renewable_capacity (current_energy * (8/10))
  let energy_savings := max_renewable_usage * (9/10)
  let cost_savings := energy_savings * (grid_cost - renewable_cost)
  let current_renewable ← pyNum (pyGet operational_data "current_renewable_usage" (.vNum 0))
  let target_renewable := min (current_renewable + 20) 80
  let recommendations : List Value :=
    [.vStr ("Increase renewable energy usage to " ++ toString target_renewable ++ "%"),
     .vStr "Optimize compressor scheduling during peak hours",
     .vStr "Implement predictive maintenance to reduce energy waste",
     .vStr "Adjust temperature setpoints for optimal efficiency"]
  if current_energy = 0 then
    .error "ZeroDivisionError: float division by zero"
  else
    return [("energy_savings", .vNum energy_savings),
            ("cost_savings", .vNum cost_savings),
            ("renewable_usage", .vNum target_renewable),
            ("recommendations", .vList recommendations),
            ("current_energy_consumption", .vNum current_energy),
            ("optimization_potential", .vNum (energy_savings / current_energy * 100)),
            ("timestamp", .vStr now)]

/-! ### PredictionService (prediction_service.py)

The service state is the in-memory prediction cache plus its
configuration.  `time.time()` readings are passed explicitly: `t0` is
the reading taken on entry (`start_time`, also used for the cache-age
check a few microseconds later), `t1` the reading taken after the
executor call returns (used for the stored timestamp and the
processing-time measurement).  The estimator argument stands for the
bound method of `self.optimizer` named at each call site. -/

/-- One value of `self.prediction_cache`: `{'data': ..., 'timestamp': ...}`
(prediction_service.py lines 93-96). -/
structure CacheEntry where
  data : Dict
  timestamp : ℚ

/-- The service's mutable fields used by the prediction operations. -/
structure ServiceState where
  prediction_cache : List (List Char × CacheEntry)
  cache_enabled : Bool
  cache_ttl : ℚ

/-- A freshly constructed service (prediction_service.py lines 39-47):
empty cache, caching enabled, TTL 300 seconds. -/
def initState : ServiceState := ⟨[], true, 300⟩

/-- Lookup `self.prediction_cache[cache_key]` (the key-in-dict check and
the read). -/
def cacheFind (c : List (List Char × CacheEntry)) (k : List Char) : Option CacheEntry :=
  (c.find? (fun p => p.1 == k)).map (fun p => p.2)

/-- `self.prediction_cache[cache_key] = {...}`: last-writer-wins
replacement, insertion order preserved. -/
def cacheStore (c : List (List Char × CacheEntry)) (k : List Char) (e : CacheEntry) :
    List (List Char × CacheEntry) :=
  if (c.find? (fun p => p.1 == k)).isSome then
    c.map (fun p => if p.1 == k then (k, e) else p)
  else c ++ [(k, e)]

/-- The cache-read step (prediction_service.py lines 79-83): returns the
cached payload only when the entry's age is strictly below the TTL, and
never mutates the cache (the returned cache is the input cache; stale
entries are removed only by `_clean_cache`). -/
def cache_get (c : List (List Char × CacheEntry)) (ttl now : ℚ) (k : List Char) :
    Option Dict × List (List Char × CacheEntry) :=
  match cacheFind c k with
  | some entry => (if now - entry.timestamp < ttl then some entry.data else none, c)
  | none => (none, c)

/-- `PredictionService._clean_cache` (prediction_service.py lines
332-345): delete every entry whose age strictly exceeds the TTL. -/
def clean_cache (c : List (List Char × CacheEntry)) (now ttl : ℚ) :
    List (List Char × CacheEntry) :=
  c.filter (fun p => !(decide (now - p.2.timestamp > ttl)))

/-- The first positional argument passed to
`loop.run_in_executor(executor, func, *args)`: either the service's
`ThreadPoolExecutor` (the bounded worker pool) or — as happens in
`predict_maintenance` and `optimize_energy`, which omit the executor
argument — a bound method of the optimizer. -/
inductive ExecutorArg where
  | pool
  | boundMethod (m : Dict → Except String Dict)

/-- The second positional argument of `run_in_executor` (the callable to
submit): either an actual call (the bound estimator method applied by a
worker) or a non-callable value such as the sensor dict. -/
inductive FuncArg where
  | callable (call : Except String Dict)
  | notCallable (v : Value)

/-- Semantics of `loop.run_in_executor(executor, func, *args)`: with the
worker pool as executor it submits `func` and awaiting the future yields
`func(*args)`; with any non-executor object (such as a bound method) it
fails immediately on `executor.submit` with an `AttributeError`. -/
def run_in_executor : ExecutorArg → FuncArg → Except String Dict
  | .pool, .callable call => call
  | .pool, .notCallable _ => .error "TypeError: object is not callable"
  | .boundMethod _, _ => .error "AttributeError: 'method' object has no attribute 'submit'"

/-- `PredictionService.predict_efficiency` (prediction_service.py lines
65-109).  On a miss the estimator call is dispatched via
`run_in_executor(self.executor, self.optimizer.predict_efficiency,
sensor_data)`; the result dict is stored in the cache and then mutated
in place to carry `processing_time_ms`, so the cached payload aliases
the returned, annotated dict. -/
def predict_efficiency (h : Dict → Int) (estimator : Dict → Except String Dict)
    (t0 t1 : ℚ) (st : ServiceState) (sensor : Dict) : Except String (Dict × ServiceState) :=
  let key := cacheKey h "efficiency_" sensor
  let read := if st.cache_enabled then cache_get st.prediction_cache st.cache_ttl t0 key
              else (none, st.prediction_cache)
  match read.1 with
  | some data => .ok (data, st)
  | none =>
    match run_in_executor .pool (.callable (estimator sensor)) with
    | .error e => .error e
    | .ok result =>
      let annotated := dinsert result "processing_time_ms" (.vNum ((t1 - t0) * 1000))
      let cache1 := if st.cache_enabled then cacheStore st.prediction_cache key ⟨annotated, t1⟩
                    else st.prediction_cache
      let cache2 := clean_cache cache1 t1 st.cache_ttl
      .ok (annotated, { st with prediction_cache := cache2 })

/-- `PredictionService.predict_maintenance` (prediction_service.py lines
111-155).  The source calls
`run_in_executor(self.optimizer.predict_maintenance, sensor_data)`,
omitting the executor argument: the bound method is passed as the
executor and the sensor dict as the callable. -/
def predict_maintenance (h : Dict → Int) (estimator : Dict → Except String Dict)
    (t0 t1 : ℚ) (st : ServiceState) (sensor : Dict) : Except String (Dict × ServiceState) :=
  let key := cacheKey h "maintenance_" sensor
  let read := if st.cache_enabled then cache_get st.prediction_cache st.cache_ttl t0 key
              else (none, st.prediction_cache)
  match read.1 with
  | some data => .ok (data, st)
  | none =>
    match run_in_executor (.boundMethod estimator) (.notCallable (.vDict sensor)) with
    | .error e => .error e
    | .ok result =>
      let annotated := dinsert result "processing_time_ms" (.vNum ((t1 - t0) * 1000))
      let cache1 := if st.cache_enabled then cacheStore st.prediction_cache key ⟨annotated, t1⟩
                    else st.prediction_cache
      let cache2 := clean_cache cache1 t1 st.cache_ttl
      .ok (annotated, { st with prediction_cache := cache2 })

/-- `PredictionService.optimize_energy` (prediction_service.py lines
157-201).  Like `predict_maintenance`, the source calls
`run_in_executor(self.optimizer.optimize_energy_usage,
operational_data)`, omitting the executor argument. -/
def optimize_energy (h : Dict → Int) (estimator : Dict → Except String Dict)
    (t0 t1 : ℚ) (st : ServiceState) (operational_data : Dict) :
    Except String (Dict × ServiceState) :=
  let key := cacheKey h "energy_" operational_data
  let read := if st.cache_enabled then cache_get st.prediction_cache st.cache_ttl t0 key
              else (none, st.prediction_cache)
  match read.1 with
  | some data => .ok (data, st)
  | none =>
    match run_in_executor (.boundMethod estimator) (.notCallable (.vDict operational_data)) with
    | .error e => .error e
    | .ok result =>
      let annotated := dinsert result "processing_time_ms" (.vNum ((t1 - t0) * 1000))
      let cache1 := if st.cache_enabled then cacheStore st.prediction_cache key ⟨annotated, t1⟩
                    else st.prediction_cache
      let cache2 := clean_cache cache1 t1 st.cache_ttl
      .ok (annotated, { st with prediction_cache := cache2 })

/-- `PredictionService._extract_operational_data` (prediction_service.py
lines 286-295); `now_hour` stands for `datetime.now().hour`. -/
def extract_operational_data (now_hour : ℚ) (sensor : Dict) : Dict :=
  [("energy_consumption", pyGet sensor "energy_consumption" (.vNum 0)),
   ("renewable_energy_available", pyGet sensor "renewable_energy_available" (.vNum (7/10))),
   ("renewable_usage", pyGet sensor "renewable_usage" (.vNum (6/10))),
   ("grid_usage", pyGet sensor "grid_usage" (.vNum (4/10))),
   ("peak_hours", pyGet sensor "peak_hours" (.vBool false)),
   ("current_hour", pyGet sensor "current_hour" (.vNum now_hour))]

/-! ### Batch predictions and network fan-out

`asyncio.gather(*tasks, return_exceptions=True)` runs the tasks under a
semaphore and fills a result slot per task index as each completes; the
returned list is in task order regardless of completion order.  We make
the completion order explicit as a schedule: a permutation of the task
indices.  Each task's own work is the comprehensive per-unit prediction
(or per-unit optimization), which the claims treat as a black box; it
is passed in as a function. -/

/-- The completion log of a gather: the tasks are finished in schedule
order, each recording its index and outcome. -/
def completionLog (task : ℕ → Except String Dict) (sched : List ℕ) :
    List (ℕ × Except String Dict) :=
  sched.map (fun i => (i, task i))

/-- Reading slot `i` of the gather result from the completion log. -/
def findLog (log : List (ℕ × Except String Dict)) (i : ℕ) : Except String Dict :=
  ((log.find? (fun p => p.1 == i)).map (fun p => p.2)).getD (.error "missing result")

/-- Post-processing of one slot of the `asyncio.gather` result in
`PredictionService.get_batch_predictions` (prediction_service.py lines
238-256): an exception becomes a per-unit failure record, a result dict
is merged into a success record via the dict literal with a `**` splat.
`now` stands for `datetime.now().isoformat()`. -/
def processBatchResult (now : String) (units_data : List Dict) (i : ℕ)
    (r : Except String Dict) : Dict :=
  let unit_id := pyGet (units_data.getD i []) "unit_id" (.vStr ("unit_" ++ toString i))
  match r with
  | .error e =>
    [("unit_id", unit_id), ("success", .vBool false), ("error", .vStr e),
     ("timestamp", .vStr now)]
  | .ok result =>
    dictLit ([("unit_id", unit_id), ("success", .vBool true)] ++ result
      ++ [("timestamp", .vStr now)])

/-- `PredictionService.get_batch_predictions` (prediction_service.py
lines 203-261).  `comprehensive` stands for
`self._predict_unit_comprehensive` applied to the unit's
`sensor_data` value (`unit_data.get('sensor_data', {})`, line 220); the
`unit_id` bound at line 219 is passed to that coroutine but unused by
it.  `sched` is the completion order of the gathered tasks. -/
def get_batch_predictions (comprehensive : Value → Except String Dict) (now : String)
    (units_data : List Dict) (sched : List ℕ) : List Dict :=
  let n := units_data.length
  let task := fun i => comprehensive (pyGet (units_data.getD i []) "sensor_data" (.vDict []))
  let log := completionLog task sched
  (List.range n).map (fun i => processBatchResult now units_data i (findLog log i))

/-- The argument extraction in the task-creation loop of
`OptimizationService.optimize_network` (optimization_service.py lines
798-804): `unit_data['unit_id']` and `unit_data['sensor_data']` are
evaluated eagerly, before any task runs, and a missing key raises a
`KeyError` that escapes the network call. -/
def networkArgs (network_data : List Dict) : Except String (List (Value × Value)) :=
  network_data.mapM (fun u => do
    let uid ← match dictFind u "unit_id" with
      | some v => Except.ok v
      | none => Except.error "KeyError: 'unit_id'"
    let sd ← match dictFind u "sensor_data" with
      | some v => Except.ok v
      | none => Except.error "KeyError: 'sensor_data'"
    pure (uid, sd))

/-- `OptimizationService.optimize_network` (optimization_service.py
lines 779-843).  `opt` stands for `self.optimize_unit_comprehensive`
(per-unit work, treated as a black box here), `agg` for
`self._aggregate_network_results` (a total function of the successful
results, assuming the well-formed result shape that
`optimize_unit_comprehensive` produces), `sched` for the completion
order of the gathered tasks, and `elapsed_ms` for the measured
processing time. -/
def optimize_network (opt : Value → Value → String → Except String Dict)
    (agg : List Dict → Dict) (now strategy : String) (network_data : List Dict)
    (sched : List ℕ) (elapsed_ms : ℚ) : Except String Dict := do
  let args ← networkArgs network_data
  let n := args.length
  let task := fun i => opt (args.getD i (.vNull, .vNull)).1 (args.getD i (.vNull, .vNull)).2 strategy
  let log := completionLog task sched
  let results := (List.range n).map (fun i => findLog log i)
  let successes := results.filterMap (fun r => match r with | .ok d => some d | .error _ => none)
  let failures := (List.range n).filterMap (fun i =>
    match results.getD i (.error "missing result") with
    | .error e => some (Value.vDict [("unit_id", (args.getD i (.vNull, .vNull)).1),
                                     ("error", .vStr e)])
    | .ok _ => none)
  return [("network_optimization", .vDict
            [("total_units", .vNum (network_data.length : ℚ)),
             ("successful_optimizations", .vNum (successes.length : ℚ)),
             ("failed_optimizations", .vNum (failures.length : ℚ)),
             ("optimization_strategy", .vStr strategy),
             ("processing_time_ms", .vNum elapsed_ms)]),
          ("results", .vList (successes.map Value.vDict)),
          ("failures", .vList failures),
          ("network_summary", .vDict (agg successes)),
          ("timestamp", .vStr now)]

/-! ### OptimizationService: strategies, constraint filtering, priority
scoring and input validation (optimization_service.py) -/

/-- A candidate recommendation as generated by
`_generate_efficiency_recommendations` /
`_generate_energy_recommendations` /
`_generate_maintenance_recommendations` (optimization_service.py lines
314-493): the fields read by filtering and prioritization. -/
structure Recommendation where
  id : String
  category : String
  title : String
  impact : NDict
  difficulty : String
  time_to_implement : ℚ
  cost : ℚ
  risk_level : String

/-- The `priority_weights` table of one strategy template
(optimization_service.py lines 80-84 etc.). -/
structure PriorityWeights where
  efficiency : ℚ
  energy_savings : ℚ
  maintenance_risk : ℚ

/-- One strategy template of `_load_optimization_templates`. -/
structure OptTemplate where
  priority_weights : PriorityWeights
  constraints : Dict

/-- `OptimizationService._load_optimization_templates`
(optimization_service.py lines 76-122). -/
def optimization_templates : List (String × OptTemplate) :=
  [("efficiency_focused",
    ⟨⟨1/2, 3/10, 1/5⟩,
     [("max_energy_increase", .vNum (5/100)), ("min_efficiency_gain", .vNum (2/100))]⟩),
   ("energy_efficient",
    ⟨⟨1/5, 3/5, 1/5⟩,
     [("max_efficiency_decrease", .vNum (1/100)), ("min_energy_savings", .vNum 50)]⟩),
   ("maintenance_prioritized",
    ⟨⟨1/5, 1/5, 3/5⟩,
     [("max_maintenance_risk", .vNum (3/10)), ("maintenance_window_days", .vNum 30)]⟩),
   ("balanced",
    ⟨⟨33/100, 33/100, 34/100⟩, [("balanced_tradeoff", .vBool true)]⟩)]

/-- Reading `constraints[name]` as a number (all numeric constraints in
the templates are numbers; non-numeric entries read as 0 here are never
reached by the checks below). -/
def cNum (c : Dict) (k : String) : ℚ :=
  match dictFind c k with
  | some (.vNum q) => q
  | _ => 0

/-- The per-candidate validity predicate of
`OptimizationService._apply_strategy_constraints`
(optimization_service.py lines 495-536): the four enforced numeric
checks; the `max_maintenance_risk` branch reads the impact but never
clears `valid` (source comment: a simplified check), and
`maintenance_window_days` / `balanced_tradeoff` are not read at all. -/
def rec_valid (constraints : Dict) (rec : Recommendation) : Bool :=
  let v1 := if hasKey constraints "max_energy_increase" then
      let energy_impact := nget rec.impact "energy_savings" 0
      !(decide (energy_impact < 0 ∧ |energy_impact| > cNum constraints "max_energy_increase" * 100))
    else true
  let v2 := if hasKey constraints "min_efficiency_gain" then
      !(decide (nget rec.impact "efficiency_gain" 0 < cNum constraints "min_efficiency_gain"))
    else true
  let v3 := if hasKey constraints "max_efficiency_decrease" then
      !(decide (nget rec.impact "efficiency_gain" 0 < -(cNum constraints "max_efficiency_decrease")))
    else true
  let v4 := if hasKey constraints "min_energy_savings" then
      !(decide (nget rec.impact "energy_savings" 0 < cNum constraints "min_energy_savings"))
    else true
  v1 && v2 && v3 && v4

/-- `OptimizationService._apply_strategy_constraints`
(optimization_service.py lines 495-536): keep exactly the candidates
whose impact map passes every enforced numeric check. -/
def apply_strategy_constraints (recs : List Recommendation) (constraints : Dict) :
    List Recommendation :=
  recs.filter (rec_valid constraints)

/-- The difficulty penalty table `{'low': 0, 'medium': 0.1, 'high': 0.2}`
(optimization_service.py line 554); `.get(..., 0)` for other strings. -/
def difficulty_penalty (d : String) : ℚ :=
  if d = "low" then 0 else if d = "medium" then 1/10 else if d = "high" then 1/5 else 0

/-- The risk penalty table `{'low': 0, 'medium': 0.15, 'high': 0.3}`
(optimization_service.py line 558); `.get(..., 0)` for other strings. -/
def risk_penalty (r : String) : ℚ :=
  if r = "low" then 0 else if r = "medium" then 3/20 else if r = "high" then 3/10 else 0

/-- `calculate_priority_score` inside
`OptimizationService._prioritize_recommendations`
(optimization_service.py lines 543-561): weighted impact sum with the
energy term divided by 10 and the risk term multiplied by 100, then
scaled by `(1 - difficulty_penalty)` and `(1 - risk_penalty)` (each
written as `score -= score * penalty` in the source). -/
def calculate_priority_score (weights : PriorityWeights) (rec : Recommendation) : ℚ :=
  let efficiency_gain := nget rec.impact "efficiency_gain" 0 * weights.efficiency
  let energy_savings := nget rec.impact "energy_savings" 0 * weights.energy_savings / 10
  let risk_reduction := nget rec.impact "maintenance_risk_reduction" 0 * weights.maintenance_risk * 100
  let score := efficiency_gain + energy_savings + risk_reduction
  let score1 := score - score * difficulty_penalty rec.difficulty
  score1 - score1 * risk_penalty rec.risk_level

/-- The sort relation of `sorted(recommendations, key=calculate_priority_score,
reverse=True)`: `a` may precede `b` when its score is at least `b`'s.
`sorted` is a stable sort, so the insertion sort below is its exact
extensional behaviour. -/
def scoreGE (weights : PriorityWeights) (a b : Recommendation) : Prop :=
  calculate_priority_score weights b ≤ calculate_priority_score weights a

instance (weights : PriorityWeights) : DecidableRel (scoreGE weights) :=
  fun a b => inferInstanceAs (Decidable
    (calculate_priority_score weights b ≤ calculate_priority_score weights a))

instance (weights : PriorityWeights) : IsTotal Recommendation (scoreGE weights) :=
  ⟨fun a b => le_total (calculate_priority_score weights b) (calculate_priority_score weights a)⟩

instance (weights : PriorityWeights) : IsTrans Recommendation (scoreGE weights) :=
  ⟨fun _ _ _ h h2 => le_trans h2 h⟩

/-- A recommendation after `_prioritize_recommendations` mutated it with
`priority_rank` and `priority_score` (optimization_service.py lines
569-571). -/
structure PrioritizedRec where
  base : Recommendation
  priority_rank : ℕ
  priority_score : ℚ

/-- `OptimizationService._prioritize_recommendations`
(optimization_service.py lines 538-573): stable sort descending by
priority score, then assign `priority_rank = i + 1` and store the
(recomputed) score. -/
def prioritize_recommendations (recs : List Recommendation) (weights : PriorityWeights) :
    List PrioritizedRec :=
  let prioritized := List.insertionSort (scoreGE weights) recs
  prioritized.enum.map (fun p => ⟨p.2, p.1 + 1, calculate_priority_score weights p.2⟩)

/-- The priority-score formula exactly as the spec sentence states it
(spec §4.4: `score = Σ(impact[dim] * weight[dim])`, scaled by
`(1 - difficulty_penalty)` and `(1 - risk_penalty)`), with no
normalization factor on any dimension.  Stated for comparison with
`calculate_priority_score`; it is not what the source computes. -/
def spec_priority_score (weights : PriorityWeights) (rec : Recommendation) : ℚ :=
  (nget rec.impact "efficiency_gain" 0 * weights.efficiency
    + nget rec.impact "energy_savings" 0 * weights.energy_savings
    + nget rec.impact "maintenance_risk_reduction" 0 * weights.maintenance_risk)
  * (1 - difficulty_penalty rec.difficulty) * (1 - risk_penalty rec.risk_level)

/-- The required sensor field set of
`OptimizationService._validate_optimization_inputs`
(optimization_service.py line 216). -/
def required_sensors : List String :=
  ["temperature", "pressure", "flow_rate", "energy_consumption"]

/-- Python `strategy in self.optimization_templates`. -/
def isKnownStrategy (strategy : String) : Bool :=
  (optimization_templates.find? (fun p => p.1 == strategy)).isSome

/-- `OptimizationService._validate_optimization_inputs`
(optimization_service.py lines 202-219): raises `ValueError` for an
empty unit id, an empty sensor dict, an unknown strategy name, or a
missing required sensor field, in that order. -/
def validate_optimization_inputs (unit_id : String) (sensor_data : Dict)
    (strategy : String) : Except String Unit :=
  if unit_id = "" then .error "ValueError: Valid unit_id is required"
  else if sensor_data.isEmpty then
    .error "ValueError: Valid sensor_data dictionary is required"
  else if !(isKnownStrategy strategy) then
    .error ("ValueError: Unknown optimization strategy: " ++ strategy)
  else
    let missing_sensors := required_sensors.filter (fun s => !(hasKey sensor_data s))
    if !(missing_sensors.isEmpty) then
      .error ("ValueError: Missing required sensor data: " ++ toString missing_sensors)
    else .ok ()

/-- `OptimizationService.optimize_unit_comprehensive`
(optimization_service.py lines 124-200): validate the inputs first
(line 146); only on success run the prediction/plan pipeline (lines
148-196), abstracted here as `pipeline` since the validation claim does
not depend on it.  A validation error is re-raised by the `except`
clause and surfaces synchronously, before any prediction is issued. -/
def optimize_unit_comprehensive (pipeline : String → Dict → String → Except String Dict)
    (unit_id : String) (sensor_data : Dict) (strategy : String) : Except String Dict :=
  match validate_optimization_inputs unit_id sensor_data strategy with
  | .error e => .error e
  | .ok _ => pipeline unit_id sensor_data strategy

/-- Whether an `Except` result is a success (no exception raised). -/
def isOkE {α : Type} : Except String α → Bool
  | .ok _ => true
  | .error _ => false

/-- The constraint table of a named strategy template. -/
def strategyConstraints (name : String) : Dict :=
  ((optimization_templates.find? (fun p => p.1 == name)).map
    (fun p => p.2.constraints)).getD []

/-- A numeric operational-data map viewed as a Python dict (the
SensorReading data model: named numeric fields). -/
def numericDict (m : NDict) : Dict :=
  m.map (fun p => (p.1, Value.vNum p.2))

/-- Strict key order on dict entries, used to show that a key-sorted
duplicate-free association list is unique in its permutation class. -/
def keyLT (a b : String × Value) : Prop := a.1 < b.1

instance : IsAntisymm (String × Value) keyLT :=
  ⟨fun _ _ h h2 => absurd h2 (lt_asymm h)⟩

/-- The canonical assembly of `optimize_network`'s return value from
the per-unit outcomes taken in input order (no schedule): successes and
failure records each appear in the same order as the input unit list. -/
def networkResult (opt : Value → Value → String → Except String Dict)
    (agg : List Dict → Dict) (now strategy : String) (network_data : List Dict)
    (args : List (Value × Value)) (elapsed_ms : ℚ) : Dict :=
  let n := args.length
  let results := (List.range n).map (fun i =>
    opt (args.getD i (.vNull, .vNull)).1 (args.getD i (.vNull, .vNull)).2 strategy)
  let successes := results.filterMap (fun r => match r with | .ok d => some d | .error _ => none)
  let failures := (List.range n).filterMap (fun i =>
    match results.getD i (.error "missing result") with
    | .error e => some (Value.vDict [("unit_id", (args.getD i (.vNull, .vNull)).1),
                                     ("error", .vStr e)])
    | .ok _ => none)
  [("network_optimization", .vDict
      [("total_units", .vNum (network_data.length : ℚ)),
       ("successful_optimizations", .vNum (successes.length : ℚ)),
       ("failed_optimizations", .vNum (failures.length : ℚ)),
       ("optimization_strategy", .vStr strategy),
       ("processing_time_ms", .vNum elapsed_ms)]),
   ("results", .vList (successes.map Value.vDict)),
   ("failures", .vList failures),
   ("network_summary", .vDict (agg successes)),
   ("timestamp", .vStr now)]

/-! ### Helper lemmas -/

/-- Reading a field of a numeric map through the dict embedding. -/
theorem pyNum_numericDict (m : NDict) (k : String) (d : ℚ) :
    pyNum (pyGet (numericDict m) k (.vNum d)) = .ok (nget m k d) := by
  induction m with
  | nil => rfl
  | cons p t ih =>
    by_cases hpk : p.1 == k
    · simp [numericDict, pyGet, dictFind, nget, List.find?_cons_of_pos, hpk, pyNum]
    · simp only [numericDict, pyGet, dictFind, nget, List.map_cons] at *
      rw [List.find?_cons_of_neg _ (by simpa using hpk),
          List.find?_cons_of_neg _ (by simpa using hpk)]
      exact ih

/-- A key that is not in the dict reads as the default. -/
theorem pyGet_of_not_hasKey (d : Dict) (k : String) (v : Value)
    (h : hasKey d k = false) : pyGet d k v = v := by
  unfold hasKey at h
  unfold pyGet
  have hn : dictFind d k = none := Option.not_isSome_iff_eq_none.mp (by simp [h])
  rw [hn]
  rfl

/-! ### Claim C1 -/

/-- C1 (code bug): the spec requires all three prediction operations to
dispatch the estimator call onto the bounded worker pool on a cache
miss, symmetrically.  Only `predict_efficiency` does: starting from a
fresh service, `predict_efficiency` runs the estimator, caches the
annotated result and returns it, while `predict_maintenance` and
`optimize_energy` omit the executor argument of `run_in_executor` and
fail with an `AttributeError` for every estimator and every input (the
estimator is never invoked: the result below does not depend on `est`). -/
theorem claim1_dispatch_code_bug (h : Dict → Int) (est : Dict → Except String Dict)
    (t0 t1 : ℚ) (sensor : Dict) :
    predict_maintenance h est t0 t1 initState sensor
        = .error "AttributeError: 'method' object has no attribute 'submit'"
  ∧ optimize_energy h est t0 t1 initState sensor
        = .error "AttributeError: 'method' object has no attribute 'submit'"
  ∧ predict_efficiency h est t0 t1 initState sensor
        = (match est sensor with
           | .error e => .error e
           | .ok result =>
             .ok (dinsert result "processing_time_ms" (.vNum ((t1 - t0) * 1000)),
                  ⟨[(cacheKey h "efficiency_" sensor,
                     ⟨dinsert result "processing_time_ms" (.vNum ((t1 - t0) * 1000)), t1⟩)],
                   true, 300⟩)) := by
  refine ⟨?_, ?_, ?_⟩
  · simp [predict_maintenance, initState, cache_get, cacheFind, run_in_executor]
  · simp [optimize_energy, initState, cache_get, cacheFind, run_in_executor]
  · cases hes : est sensor with
    | error e =>
      simp [predict_efficiency, initState, cache_get, cacheFind, run_in_executor, hes]
    | ok result =>
      simp only [predict_efficiency, initState, cache_get, cacheFind, run_in_executor,
        List.find?_nil, Option.map_none, cacheStore, hes, clean_cache, List.filter,
        List.map_nil, List.nil_append, Option.isSome_none, Bool.false_eq_true, if_true,
        if_false]
      have h0 : ¬(t1 - t1 > 300) := by simp
      simp [h0]
      norm_num

/-! ### Claim C10 -/

/-- C10: on any numeric operational-data map whose `energy_consumption`
field reads as 0 (in particular when the field is absent, since the
substituted default is 0), `optimize_energy_usage` raises
`ZeroDivisionError` while computing `optimization_potential`; whenever
the field is nonzero the call succeeds, so `energy_consumption ≠ 0`
(in intent, `> 0`) is an unstated precondition.  Moreover
`_extract_operational_data` substitutes exactly 0 for a missing
`energy_consumption` field. -/
theorem claim10_division_by_zero (now : String) :
    (∀ m : NDict, nget m "energy_consumption" 0 = 0 →
        optimize_energy_usage now (numericDict m)
          = .error "ZeroDivisionError: float division by zero")
  ∧ (∀ m : NDict, nget m "energy_consumption" 0 ≠ 0 →
        isOkE (optimize_energy_usage now (numericDict m)) = true)
  ∧ (∀ (now_hour : ℚ) (sensor : Dict), hasKey sensor "energy_consumption" = false →
        pyGet (extract_operational_data now_hour sensor) "energy_consumption" (.vNum 0)
          = .vNum 0) := by
  refine ⟨?_, ?_, ?_⟩
  · intro m hm
    simp [optimize_energy_usage, pyNum_numericDict, hm, Bind.bind, Except.bind]
  · intro m hm
    simp [optimize_energy_usage, pyNum_numericDict, hm, Bind.bind, Except.bind,
      isOkE, pure, Except.pure]
  · intro now_hour sensor hs
    have hv := pyGet_of_not_hasKey sensor "energy_consumption" (.vNum 0) hs
    simpa [extract_operational_data, pyGet, dictFind] using hv

/-- Witness for C10 at concrete inputs: the empty map reads
`energy_consumption` as 0 and the call raises `ZeroDivisionError`; with
`energy_consumption = 100` it succeeds. -/
theorem claim10_witness :
    nget ([] : NDict) "energy_consumption" 0 = 0
  ∧ optimize_energy_usage "t" (numericDict [])
      = .error "ZeroDivisionError: float division by zero"
  ∧ nget [("energy_consumption", (100 : ℚ))] "energy_consumption" 0 ≠ 0
  ∧ isOkE (optimize_energy_usage "t" (numericDict [("energy_consumption", 100)])) = true :=
  ⟨rfl, (claim10_division_by_zero "t").1 [] rfl, by norm_num [nget],
   (claim10_division_by_zero "t").2.1 [("energy_consumption", 100)] (by norm_num [nget])⟩

/-! ### Claim C9 -/

/-- C9: `optimize_unit_comprehensive` validates its inputs first.
Validation succeeds exactly when the unit id is non-empty, the strategy
is one of the known templates and every required sensor field is
present (an empty reading is subsumed: it lacks all required fields);
when validation fails, the call returns that validation error without
running the prediction pipeline (the outcome is the same for every
pipeline), and when it succeeds the pipeline runs. -/
theorem claim9_input_validation (unit_id : String) (sensor_data : Dict) (strategy : String) :
    (isOkE (validate_optimization_inputs unit_id sensor_data strategy) = true ↔
      (unit_id ≠ "" ∧ isKnownStrategy strategy = true
        ∧ required_sensors.all (hasKey sensor_data) = true))
  ∧ (∀ pipe pipe2 : String → Dict → String → Except String Dict,
      isOkE (validate_optimization_inputs unit_id sensor_data strategy) = false →
        optimize_unit_comprehensive pipe unit_id sensor_data strategy
            = optimize_unit_comprehensive pipe2 unit_id sensor_data strategy
          ∧ isOkE (optimize_unit_comprehensive pipe unit_id sensor_data strategy) = false)
  ∧ (∀ pipe : String → Dict → String → Except String Dict,
      isOkE (validate_optimization_inputs unit_id sensor_data strategy) = true →
        optimize_unit_comprehensive pipe unit_id sensor_data strategy
          = pipe unit_id sensor_data strategy) := by
  refine ⟨?_, ?_, ?_⟩
  · unfold validate_optimization_inputs
    split_ifs with h1 h2 h3
    · simp [isOkE, h1]
    · have hsd : sensor_data = [] := by simpa using h2
      subst hsd
      simp [isOkE, required_sensors, hasKey, dictFind]
    · simp only [Bool.not_eq_true'] at h3
      simp [isOkE, h3]
    · have hknown : isKnownStrategy strategy = true := by
        simpa [Bool.not_eq_true'] using h3
      by_cases h4 : (required_sensors.filter (fun s => !(hasKey sensor_data s))).isEmpty = true
      · simp only [h4, Bool.not_true, Bool.false_eq_true, if_false, isOkE, true_iff]
        refine ⟨h1, hknown, ?_⟩
        rw [List.all_eq_true]
        intro s hs
        by_contra hno
        have hmem : s ∈ required_sensors.filter (fun s => !(hasKey sensor_data s)) := by
          rw [List.mem_filter]
          refine ⟨hs, ?_⟩
          simp only [Bool.not_eq_true] at hno
          simp [hno]
        rw [List.isEmpty_iff.mp h4] at hmem
        simp at hmem
      · have hne : required_sensors.filter (fun s => !(hasKey sensor_data s)) ≠ [] := by
          simpa [List.isEmpty_iff] using h4
        obtain ⟨s, hs⟩ := List.exists_mem_of_ne_nil _ hne
        rw [List.mem_filter] at hs
        have h4f : (required_sensors.filter (fun s => !(hasKey sensor_data s))).isEmpty = false := by
          simpa [Bool.not_eq_true] using h4
        simp only [h4f, Bool.not_false, if_true, isOkE, Bool.false_eq_true, false_iff]
        intro hc
        have := List.all_eq_true.mp hc.2.2 s hs.1
        rw [this] at hs
        simp at hs
  · intro pipe pipe2 hbad
    unfold optimize_unit_comprehensive
    cases hv : validate_optimization_inputs unit_id sensor_data strategy with
    | error e => simp [isOkE]
    | ok u => rw [hv] at hbad; simp [isOkE] at hbad
  · intro pipe hok
    unfold optimize_unit_comprehensive
    cases hv : validate_optimization_inputs unit_id sensor_data strategy with
    | error e => rw [hv] at hok; simp [isOkE] at hok
    | ok u => rfl

/-- Witness for C9: with an empty unit id, validation fails, and the
comprehensive call returns the same validation error for two different
pipelines (no prediction is issued); with valid inputs the validator
accepts. -/
theorem claim9_witness :
    isOkE (validate_optimization_inputs "" [] "balanced") = false
  ∧ optimize_unit_comprehensive (fun _ _ _ => .ok []) "" [] "balanced"
      = optimize_unit_comprehensive (fun _ _ _ => .error "pipeline") "" [] "balanced"
  ∧ isOkE (validate_optimization_inputs "CC-001"
      [("temperature", .vNum 70), ("pressure", .vNum 45), ("flow_rate", .vNum 1200),
       ("energy_consumption", .vNum 850)] "balanced") = true :=
  ⟨rfl,
   ((claim9_input_validation "" [] "balanced").2.1
      (fun _ _ _ => .ok []) (fun _ _ _ => .error "pipeline") rfl).1,
   ((claim9_input_validation "CC-001"
      [("temperature", .vNum 70), ("pressure", .vNum 45), ("flow_rate", .vNum 1200),
       ("energy_consumption", .vNum 850)] "balanced").1).mpr
     ⟨by simp, by decide, by decide⟩⟩

/-! ### Claim C6 -/

/-- C6: an inference call for a target with no trained estimator fails
with the model-not-trained `ValueError` (the realization of
`ModelNotReadyError`), for both the efficiency and the maintenance
target; for efficiency the error also propagates uncaught through the
single-item service operation (whose `except` clause re-raises), so it
is never converted into a default prediction result. -/
theorem claim6_model_not_ready (models : List (String × EstimatorFacade)) (now : String)
    (now_days : ℚ) (h : Dict → Int) (t0 t1 : ℚ) (sensor : Dict) :
    (models.find? (fun p => p.1 == "efficiency") = none →
        optimizerPredictEfficiency models now sensor
          = .error "ValueError: Efficiency model not trained. Please train the model first."
      ∧ predict_efficiency h (optimizerPredictEfficiency models now) t0 t1 initState sensor
          = .error "ValueError: Efficiency model not trained. Please train the model first.")
  ∧ (models.find? (fun p => p.1 == "maintenance") = none →
        optimizerPredictMaintenance models now now_days sensor
          = .error "ValueError: Maintenance model not trained. Please train the model first.") := by
  constructor
  · intro hf
    have h1 : optimizerPredictEfficiency models now sensor
        = .error "ValueError: Efficiency model not trained. Please train the model first." := by
      simp [optimizerPredictEfficiency, hf]
    refine ⟨h1, ?_⟩
    simp [predict_efficiency, initState, cache_get, cacheFind, run_in_executor, h1]
  · intro hf
    simp [optimizerPredictMaintenance, hf]

/-- Witness for C6: with an empty model registry both targets fail with
the model-not-trained error, and the service-level efficiency call
propagates it. -/
theorem claim6_witness :
    (([] : List (String × EstimatorFacade)).find? (fun p => p.1 == "efficiency") = none)
  ∧ optimizerPredictEfficiency [] "t" []
      = .error "ValueError: Efficiency model not trained. Please train the model first."
  ∧ predict_efficiency (fun _ => 0) (optimizerPredictEfficiency [] "t") 0 1 initState []
      = .error "ValueError: Efficiency model not trained. Please train the model first."
  ∧ optimizerPredictMaintenance [] "t" 0 []
      = .error "ValueError: Maintenance model not trained. Please train the model first." :=
  ⟨rfl,
   ((claim6_model_not_ready [] "t" 0 (fun _ => 0) 0 1 []).1 rfl).1,
   ((claim6_model_not_ready [] "t" 0 (fun _ => 0) 0 1 []).1 rfl).2,
   (claim6_model_not_ready [] "t" 0 (fun _ => 0) 0 1 []).2 rfl⟩

/-- Two character lists with distinct heads stay distinct under any
suffixes. -/
theorem append_ne_of_head_ne {c1 c2 : Char} (hne : c1 ≠ c2) (l1 l2 s1 s2 : List Char) :
    (c1 :: l1) ++ s1 ≠ (c2 :: l2) ++ s2 := by
  intro hEq
  simp only [List.cons_append, List.cons.injEq] at hEq
  exact hne hEq.1

/-- Two character lists agreeing on the first character but differing on
the second stay distinct under any suffixes. -/
theorem append_ne_of_second_ne {a b1 b2 : Char} (hne : b1 ≠ b2) (l1 l2 s1 s2 : List Char) :
    (a :: b1 :: l1) ++ s1 ≠ (a :: b2 :: l2) ++ s2 := by
  intro hEq
  simp only [List.cons_append, List.cons.injEq] at hEq
  exact hne hEq.2.1

/-- A key-sorted association list with strictly increasing keys. -/
theorem sorted_keyLT_of_sorted_keyLE {l : Dict} (hs : l.Sorted keyLE)
    (hnd : (l.map Prod.fst).Nodup) : l.Sorted keyLT := by
  have hne : l.Pairwise (fun a b : String × Value => a.1 ≠ b.1) :=
    (List.pairwise_map).mp hnd
  exact (hs.and hne).imp (fun hab => lt_of_le_of_ne hab.1 hab.2)

/-- Key-sorting is invariant under permutation of a duplicate-free
association list: the canonical serialization order of a Python dict
does not depend on insertion order. -/
theorem sortByKeys_eq_of_perm (d1 d2 : Dict) (hp : d1.Perm d2)
    (hnd : (d1.map Prod.fst).Nodup) : sortByKeys d1 = sortByKeys d2 := by
  have hs1 : (sortByKeys d1).Sorted keyLE := List.sorted_insertionSort keyLE d1
  have hs2 : (sortByKeys d2).Sorted keyLE := List.sorted_insertionSort keyLE d2
  have hp1 : (sortByKeys d1).Perm d1 := List.perm_insertionSort keyLE d1
  have hp2 : (sortByKeys d2).Perm d2 := List.perm_insertionSort keyLE d2
  have hperm : (sortByKeys d1).Perm (sortByKeys d2) := hp1.trans (hp.trans hp2.symm)
  have hnd1 : ((sortByKeys d1).map Prod.fst).Nodup := ((hp1.map Prod.fst).nodup_iff).mpr hnd
  have hnd2 : ((sortByKeys d2).map Prod.fst).Nodup :=
    ((hperm.map Prod.fst).nodup_iff).mp hnd1
  exact List.eq_of_perm_of_sorted hperm
    (sorted_keyLT_of_sorted_keyLE hs1 hnd1) (sorted_keyLT_of_sorted_keyLE hs2 hnd2)

/-! ### Claim C5 -/

/-- C5: cache keys are scoped by prediction kind — for any two sensor
readings (in particular structurally identical ones) the key built for
one kind never equals the key built for a different kind, since the
kind tags prefix the key string; and for a fixed kind, two readings
with the same key-value pairs in any insertion order produce the same
key, because the serialization sorts the keys and the hash is a
function of the sorted serialization. -/
theorem claim5_cache_key_scoping (h : Dict → Int) (d1 d2 : Dict) :
    (cacheKey h "efficiency_" d1 ≠ cacheKey h "maintenance_" d2
      ∧ cacheKey h "efficiency_" d1 ≠ cacheKey h "energy_" d2
      ∧ cacheKey h "maintenance_" d1 ≠ cacheKey h "energy_" d2)
  ∧ (∀ kind : String, d1.Perm d2 → (d1.map Prod.fst).Nodup →
      cacheKey h kind d1 = cacheKey h kind d2) := by
  constructor
  · unfold cacheKey
    refine ⟨?_, ?_, ?_⟩
    · rw [show "efficiency_".data = 'e' :: "fficiency_".data from rfl,
          show "maintenance_".data = 'm' :: "aintenance_".data from rfl]
      exact append_ne_of_head_ne (by decide) _ _ _ _
    · rw [show "efficiency_".data = 'e' :: 'f' :: "ficiency_".data from rfl,
          show "energy_".data = 'e' :: 'n' :: "ergy_".data from rfl]
      exact append_ne_of_second_ne (by decide) _ _ _ _
    · rw [show "maintenance_".data = 'm' :: "aintenance_".data from rfl,
          show "energy_".data = 'e' :: "nergy_".data from rfl]
      exact append_ne_of_head_ne (by decide) _ _ _ _
  · intro kind hp hnd
    unfold cacheKey
    rw [sortByKeys_eq_of_perm d1 d2 hp hnd]

/-- Witness for C5: the same two-field reading in both insertion orders
gets the same efficiency key, for a concrete hash function. -/
theorem claim5_witness :
    ([("a", Value.vNum 1), ("b", Value.vNum 2)] : Dict).Perm
        [("b", Value.vNum 2), ("a", Value.vNum 1)]
  ∧ (([("a", Value.vNum 1), ("b", Value.vNum 2)] : Dict).map Prod.fst).Nodup
  ∧ cacheKey (fun d => (d.length : Int)) "efficiency_" [("a", Value.vNum 1), ("b", Value.vNum 2)]
      = cacheKey (fun d => (d.length : Int)) "efficiency_"
          [("b", Value.vNum 2), ("a", Value.vNum 1)] :=
  ⟨List.Perm.swap ("b", Value.vNum 2) ("a", Value.vNum 1) [],
   by decide,
   (claim5_cache_key_scoping (fun d => (d.length : Int))
      [("a", Value.vNum 1), ("b", Value.vNum 2)]
      [("b", Value.vNum 2), ("a", Value.vNum 1)]).2 "efficiency_"
     (List.Perm.swap ("b", Value.vNum 2) ("a", Value.vNum 1) [])
     (by decide)⟩


/-- Evaluation of `predict_efficiency` on a fresh service: a cache miss
that dispatches the estimator, annotates and caches the result. -/
theorem predict_efficiency_empty_cache (h : Dict → Int) (est : Dict → Except String Dict)
    (t0 t1 : ℚ) (sensor : Dict) :
    predict_efficiency h est t0 t1 initState sensor
      = (match est sensor with
         | .error e => .error e
         | .ok result =>
           .ok (dinsert result "processing_time_ms" (.vNum ((t1 - t0) * 1000)),
                ⟨[(cacheKey h "efficiency_" sensor,
                   ⟨dinsert result "processing_time_ms" (.vNum ((t1 - t0) * 1000)), t1⟩)],
                 true, 300⟩)) := by
  cases hes : est sensor with
  | error e =>
    simp [predict_efficiency, initState, cache_get, cacheFind, run_in_executor, hes]
  | ok result =>
    simp only [predict_efficiency, initState, cache_get, cacheFind, run_in_executor,
      List.find?_nil, Option.map_none, cacheStore, hes, clean_cache, List.filter,
      List.map_nil, List.nil_append, Option.isSome_none, Bool.false_eq_true, if_true,
      if_false]
    have h0 : ¬(t1 - t1 > 300) := by simp
    simp [h0]
    norm_num

/-- Evaluation of `predict_efficiency` on a cache hit: when the entry
for the reading's key is younger than the TTL, the cached payload is
returned as is and the state is untouched; the estimator argument is
irrelevant. -/
theorem predict_efficiency_hit (h : Dict → Int) (est2 : Dict → Except String Dict)
    (t0 t1 : ℚ) (st : ServiceState) (sensor : Dict) (entry : CacheEntry)
    (hen : st.cache_enabled = true)
    (hfind : cacheFind st.prediction_cache (cacheKey h "efficiency_" sensor) = some entry)
    (hfresh : t0 - entry.timestamp < st.cache_ttl) :
    predict_efficiency h est2 t0 t1 st sensor = .ok (entry.data, st) := by
  simp [predict_efficiency, hen, cache_get, hfind, hfresh]

/-! ### Claim C3 -/

/-- C3 (counterexample): calling `predict_efficiency` twice within the
TTL, the second call is not annotated with its own (near-zero)
processing time.  First call at times 0 and 1/2 (500 ms of measured
work); second call at times 10 and 10 (0 ms of measured work, with a
different estimator, which is ignored): the returned payload carries
`processing_time_ms = 500` — the first call's annotation, cached by
aliasing — not `(10 - 10) * 1000 = 0`. -/
theorem claim3_counterexample :
    Except.map (fun p => pyGet p.1 "processing_time_ms" .vNull)
      (do
        let first ← predict_efficiency (fun _ => 0)
          (fun _ => .ok [("predicted_efficiency", Value.vNum 85)]) 0 (1/2) initState []
        predict_efficiency (fun _ => 0)
          (fun _ => .ok [("predicted_efficiency", Value.vNum 99)]) 10 10 first.2 [] :
        Except String (Dict × ServiceState))
      = .ok (.vNum 500)
  ∧ ((10 : ℚ) - 10) * 1000 = 0
  ∧ Value.vNum 500 ≠ Value.vNum 0 := by
  have hfirst : predict_efficiency (fun _ => 0)
      (fun _ => .ok [("predicted_efficiency", Value.vNum 85)]) 0 (1/2) initState []
      = .ok ([("predicted_efficiency", Value.vNum 85), ("processing_time_ms", Value.vNum 500)],
             ⟨[(cacheKey (fun _ => 0) "efficiency_" [],
                ⟨[("predicted_efficiency", Value.vNum 85),
                  ("processing_time_ms", Value.vNum 500)], 1/2⟩)], true, 300⟩) := by
    rw [predict_efficiency_empty_cache]
    norm_num [dinsert, hasKey, dictFind]
    all_goals decide
  have hsecond : predict_efficiency (fun _ => 0)
      (fun _ => .ok [("predicted_efficiency", Value.vNum 99)]) 10 10
      (⟨[(cacheKey (fun _ => 0) "efficiency_" [],
          ⟨[("predicted_efficiency", Value.vNum 85),
            ("processing_time_ms", Value.vNum 500)], 1/2⟩)], true, 300⟩ : ServiceState) []
      = .ok ([("predicted_efficiency", Value.vNum 85), ("processing_time_ms", Value.vNum 500)],
             ⟨[(cacheKey (fun _ => 0) "efficiency_" [],
                ⟨[("predicted_efficiency", Value.vNum 85),
                  ("processing_time_ms", Value.vNum 500)], 1/2⟩)], true, 300⟩) := by
    exact predict_efficiency_hit (fun _ => 0) (fun _ => .ok [("predicted_efficiency", Value.vNum 99)])
      10 10 _ []
      ⟨[("predicted_efficiency", Value.vNum 85), ("processing_time_ms", Value.vNum 500)], 1/2⟩
      rfl (by simp [cacheFind]) (by norm_num)
  refine ⟨?_, by norm_num, ?_⟩
  · rw [show (do
        let first ← predict_efficiency (fun _ => 0)
          (fun _ => .ok [("predicted_efficiency", Value.vNum 85)]) 0 (1/2) initState []
        predict_efficiency (fun _ => 0)
          (fun _ => .ok [("predicted_efficiency", Value.vNum 99)]) 10 10 first.2 [] :
        Except String (Dict × ServiceState))
      = predict_efficiency (fun _ => 0)
          (fun _ => .ok [("predicted_efficiency", Value.vNum 99)]) 10 10
          (⟨[(cacheKey (fun _ => 0) "efficiency_" [],
              ⟨[("predicted_efficiency", Value.vNum 85),
                ("processing_time_ms", Value.vNum 500)], 1/2⟩)], true, 300⟩ : ServiceState) []
      from by rw [hfirst]; rfl]
    rw [hsecond]
    simp [pyGet, dictFind, Except.map]
  · intro hEq
    rw [Value.vNum.injEq] at hEq
    norm_num at hEq

/-- C3 (amended): a second `predict_efficiency` call within the TTL
window returns exactly the first call's payload — identical including
its `processing_time_ms` field, since the cache stores a reference to
the annotated dict — without re-running the estimator (the second
call's estimator is arbitrary) and without touching the state. -/
theorem claim3_cache_hit_payload (h : Dict → Int) (est est2 : Dict → Except String Dict)
    (t0 t1 t0' t1' : ℚ) (sensor : Dict) (r1 : Dict) (st1 : ServiceState)
    (h1 : predict_efficiency h est t0 t1 initState sensor = .ok (r1, st1))
    (hfresh : t0' - t1 < 300) :
    predict_efficiency h est2 t0' t1' st1 sensor = .ok (r1, st1) := by
  rw [predict_efficiency_empty_cache] at h1
  cases hes : est sensor with
  | error e => rw [hes] at h1; simp at h1
  | ok result =>
    rw [hes] at h1
    simp only [Except.ok.injEq, Prod.mk.injEq] at h1
    obtain ⟨hr, hst⟩ := h1
    subst hr
    subst hst
    exact predict_efficiency_hit h est2 t0' t1' _ sensor
      ⟨dinsert result "processing_time_ms" (.vNum ((t1 - t0) * 1000)), t1⟩
      rfl (by simp [cacheFind]) (by simpa using hfresh)

/-- Witness for C3 (amended) at concrete inputs: the first call result
and state, the freshness bound, and the second call returning them
unchanged. -/
theorem claim3_witness :
    predict_efficiency (fun _ => 0) (fun _ => .ok [("predicted_efficiency", Value.vNum 85)])
        0 (1/2) initState []
      = .ok ([("predicted_efficiency", Value.vNum 85), ("processing_time_ms", Value.vNum 500)],
             ⟨[(cacheKey (fun _ => 0) "efficiency_" [],
                ⟨[("predicted_efficiency", Value.vNum 85),
                  ("processing_time_ms", Value.vNum 500)], 1/2⟩)], true, 300⟩)
  ∧ (10 : ℚ) - 1/2 < 300
  ∧ predict_efficiency (fun _ => 0) (fun _ => .ok [("predicted_efficiency", Value.vNum 99)])
        10 10
        ⟨[(cacheKey (fun _ => 0) "efficiency_" [],
           ⟨[("predicted_efficiency", Value.vNum 85),
             ("processing_time_ms", Value.vNum 500)], 1/2⟩)], true, 300⟩ []
      = .ok ([("predicted_efficiency", Value.vNum 85), ("processing_time_ms", Value.vNum 500)],
             ⟨[(cacheKey (fun _ => 0) "efficiency_" [],
                ⟨[("predicted_efficiency", Value.vNum 85),
                  ("processing_time_ms", Value.vNum 500)], 1/2⟩)], true, 300⟩) := by
  have hfirst : predict_efficiency (fun _ => 0)
      (fun _ => .ok [("predicted_efficiency", Value.vNum 85)]) 0 (1/2) initState []
      = .ok ([("predicted_efficiency", Value.vNum 85), ("processing_time_ms", Value.vNum 500)],
             ⟨[(cacheKey (fun _ => 0) "efficiency_" [],
                ⟨[("predicted_efficiency", Value.vNum 85),
                  ("processing_time_ms", Value.vNum 500)], 1/2⟩)], true, 300⟩) := by
    rw [predict_efficiency_empty_cache]
    norm_num [dinsert, hasKey, dictFind]
    all_goals decide
  exact ⟨hfirst, by norm_num,
    claim3_cache_hit_payload (fun _ => 0)
      (fun _ => .ok [("predicted_efficiency", Value.vNum 85)])
      (fun _ => .ok [("predicted_efficiency", Value.vNum 99)])
      0 (1/2) 10 10 [] _ _ hfirst (by norm_num)⟩

/-! ### Claim C4 -/

/-- C4 (counterexample): at age exactly equal to the TTL the lookup
misses.  An entry created at time 0 and read at time 300 satisfies the
claim's condition `now - created_at ≤ ttl`, yet the read behaves as a
miss and the call recomputes: with the estimator now returning 99, the
call at the boundary returns 99, not the cached 85. -/
theorem claim4_counterexample :
    (cache_get [(cacheKey (fun _ => 0) "efficiency_" [],
        ⟨[("predicted_efficiency", Value.vNum 85)], 0⟩)] 300 300
        (cacheKey (fun _ => 0) "efficiency_" [])).1 = none
  ∧ (300 : ℚ) - 0 ≤ 300
  ∧ Except.map (fun p => pyGet p.1 "predicted_efficiency" .vNull)
      (predict_efficiency (fun _ => 0) (fun _ => .ok [("predicted_efficiency", Value.vNum 99)])
        300 301
        ⟨[(cacheKey (fun _ => 0) "efficiency_" [],
           ⟨[("predicted_efficiency", Value.vNum 85)], 0⟩)], true, 300⟩ [])
      = .ok (.vNum 99) := by
  refine ⟨?_, by norm_num, ?_⟩
  · have hc : ¬((300 : ℚ) - 0 < 300) := by norm_num
    simp [cache_get, cacheFind, hc]
  · have hc : ¬((300 : ℚ) - 0 < 300) := by norm_num
    simp [predict_efficiency, cache_get, cacheFind, hc, run_in_executor, Except.map,
      dinsert, hasKey, dictFind, pyGet]

/-- C4 (amended): a cache lookup returns the cached value iff the
entry's age is strictly below the TTL (`now - created_at < ttl`, not
`≤`); the lookup itself never mutates the cache (the stale entry is not
deleted synchronously on the read); and a call finding only a stale
entry recomputes, returning the estimator's current output annotated
with the new processing time. -/
theorem claim4_ttl_semantics (cache : List (List Char × CacheEntry)) (ttl now : ℚ)
    (k : List Char) (entry : CacheEntry) :
    (cacheFind cache k = some entry →
      (cache_get cache ttl now k).1
        = (if now - entry.timestamp < ttl then some entry.data else none))
  ∧ (cache_get cache ttl now k).2 = cache
  ∧ (∀ (h : Dict → Int) (est2 : Dict → Except String Dict) (t1 : ℚ)
       (st : ServiceState) (sensor : Dict) (r : Dict),
      st.cache_enabled = true →
      cacheFind st.prediction_cache (cacheKey h "efficiency_" sensor) = some entry →
      ¬(now - entry.timestamp < st.cache_ttl) →
      est2 sensor = .ok r →
        Except.map Prod.fst (predict_efficiency h est2 now t1 st sensor)
          = .ok (dinsert r "processing_time_ms" (.vNum ((t1 - now) * 1000)))) := by
  refine ⟨?_, ?_, ?_⟩
  · intro hf
    simp [cache_get, hf]
  · cases hf : cacheFind cache k <;> simp [cache_get, hf]
  · intro h est2 t1 st sensor r hen hfind hstale hes
    simp [predict_efficiency, cache_get, hen, hfind, hstale, hes, run_in_executor, Except.map]

/-- Witness for C4 (amended) at concrete inputs: a stale entry (created
at 0, read at 301 with TTL 300) is ignored and the call returns the
estimator's current output. -/
theorem claim4_witness :
    cacheFind [(cacheKey (fun _ => 0) "efficiency_" [],
        ⟨[("predicted_efficiency", Value.vNum 85)], 0⟩)]
        (cacheKey (fun _ => 0) "efficiency_" [])
      = some ⟨[("predicted_efficiency", Value.vNum 85)], 0⟩
  ∧ ¬((301 : ℚ) - 0 < 300)
  ∧ Except.map Prod.fst
      (predict_efficiency (fun _ => 0) (fun _ => .ok [("predicted_efficiency", Value.vNum 99)])
        301 302
        ⟨[(cacheKey (fun _ => 0) "efficiency_" [],
           ⟨[("predicted_efficiency", Value.vNum 85)], 0⟩)], true, 300⟩ [])
      = .ok (dinsert [("predicted_efficiency", Value.vNum 99)] "processing_time_ms"
              (.vNum (((302 : ℚ) - 301) * 1000))) := by
  refine ⟨by simp [cacheFind], by norm_num, ?_⟩
  exact (claim4_ttl_semantics
      [(cacheKey (fun _ => 0) "efficiency_" [],
        ⟨[("predicted_efficiency", Value.vNum 85)], 0⟩)] 300 301
      (cacheKey (fun _ => 0) "efficiency_" [])
      ⟨[("predicted_efficiency", Value.vNum 85)], 0⟩).2.2
    (fun _ => 0) (fun _ => .ok [("predicted_efficiency", Value.vNum 99)]) 302
    ⟨[(cacheKey (fun _ => 0) "efficiency_" [],
       ⟨[("predicted_efficiency", Value.vNum 85)], 0⟩)], true, 300⟩ []
    [("predicted_efficiency", Value.vNum 99)]
    rfl (by simp [cacheFind]) (by norm_num) rfl

/-- Stability of the stable sort on tied elements: filtering the sorted
list down to any class of mutually-tied elements recovers their
original order. -/
theorem insertionSort_filter_of_ties (r : Recommendation → Recommendation → Prop)
    [DecidableRel r] (l : List Recommendation) (p : Recommendation → Bool)
    (hp : ∀ a b, p a = true → p b = true → r a b) :
    (List.insertionSort r l).filter p = l.filter p := by
  have hpair : (l.filter p).Pairwise r :=
    List.pairwise_of_forall_mem_list (fun a ha b hb =>
      hp a b (List.of_mem_filter ha) (List.of_mem_filter hb))
  have hsub : List.Sublist (l.filter p) (List.insertionSort r l) :=
    List.sublist_insertionSort hpair (List.filter_sublist l)
  have hself : (l.filter p).filter p = l.filter p :=
    List.filter_eq_self.mpr (fun a ha => List.of_mem_filter ha)
  have hsub2 : List.Sublist (l.filter p) ((List.insertionSort r l).filter p) := by
    have := hsub.filter p
    rwa [hself] at this
  have hperm : ((List.insertionSort r l).filter p).Perm (l.filter p) :=
    (List.perm_insertionSort r l).filter p
  exact (hsub2.eq_of_length hperm.length_eq.symm).symm

/-! ### Claim C7 -/

/-- C7 (counterexample): the priority score is not the plain weighted
impact sum of the claim.  For a candidate recommendation with
`impact = {energy_savings: 10}`, difficulty and risk `low`, under the
balanced weights, the code's score is `10 * 0.33 / 10 = 0.33` (the
energy term is divided by 10), while the claim's formula gives
`10 * 0.33 = 3.3`. -/
theorem claim7_counterexample :
    (prioritize_recommendations
        [⟨"renewable_shift", "energy", "Increase Renewable Energy Usage",
          [("energy_savings", 10)], "low", 8, 500, "low"⟩]
        ⟨33/100, 33/100, 34/100⟩).map (fun p => p.priority_score) = [33/100]
  ∧ spec_priority_score ⟨33/100, 33/100, 34/100⟩
      ⟨"renewable_shift", "energy", "Increase Renewable Energy Usage",
       [("energy_savings", 10)], "low", 8, 500, "low"⟩ = 33/10
  ∧ (33/100 : ℚ) ≠ 33/10 := by
  refine ⟨?_, ?_, by norm_num⟩
  · simp [prioritize_recommendations, List.insertionSort, calculate_priority_score, nget,
      difficulty_penalty, risk_penalty]
  · simp [spec_priority_score, nget, difficulty_penalty, risk_penalty]
    norm_num

/-- C7 (amended): `_prioritize_recommendations` returns the candidates
stably sorted in descending order of the code's priority score — the
weighted impact sum with the energy term divided by 10 and the
maintenance-risk term multiplied by 100, scaled by
`(1 - difficulty_penalty)` and `(1 - risk_penalty)` with tables
`{low: 0, medium: 0.1, high: 0.2}` and `{low: 0, medium: 0.15,
high: 0.3}` — each annotated with that score, with ties preserving the
original candidate order and `priority_rank` the contiguous sequence
1..N of list positions. -/
theorem claim7_priority_ordering (recs : List Recommendation) (weights : PriorityWeights) :
    ((prioritize_recommendations recs weights).map PrioritizedRec.base).Perm recs
  ∧ (prioritize_recommendations recs weights).map (fun p => p.priority_score)
      = ((prioritize_recommendations recs weights).map PrioritizedRec.base).map
          (calculate_priority_score weights)
  ∧ List.Pairwise (fun a b => b.priority_score ≤ a.priority_score)
      (prioritize_recommendations recs weights)
  ∧ (prioritize_recommendations recs weights).map (fun p => p.priority_rank)
      = List.range' 1 recs.length
  ∧ ∀ s : ℚ, ((prioritize_recommendations recs weights).map PrioritizedRec.base).filter
        (fun r => decide (calculate_priority_score weights r = s))
      = recs.filter (fun r => decide (calculate_priority_score weights r = s)) := by
  have hbase : (prioritize_recommendations recs weights).map PrioritizedRec.base
      = List.insertionSort (scoreGE weights) recs := by
    simp only [prioritize_recommendations, List.map_map]
    rw [show (PrioritizedRec.base ∘ fun p : ℕ × Recommendation =>
          (⟨p.2, p.1 + 1, calculate_priority_score weights p.2⟩ : PrioritizedRec))
        = Prod.snd from rfl]
    exact List.enum_map_snd _
  refine ⟨?_, ?_, ?_, ?_, ?_⟩
  · rw [hbase]
    exact List.perm_insertionSort (scoreGE weights) recs
  · rw [hbase]
    simp only [prioritize_recommendations, List.map_map]
    rw [show ((fun p : PrioritizedRec => p.priority_score) ∘ fun p : ℕ × Recommendation =>
          (⟨p.2, p.1 + 1, calculate_priority_score weights p.2⟩ : PrioritizedRec))
        = (calculate_priority_score weights) ∘ Prod.snd from rfl,
      ← List.map_map, List.enum_map_snd]
  · have hs : (List.insertionSort (scoreGE weights) recs).Pairwise (scoreGE weights) :=
      List.sorted_insertionSort (scoreGE weights) recs
    have he : ((List.insertionSort (scoreGE weights) recs).enum).Pairwise
        (fun a b => scoreGE weights a.2 b.2) := by
      rw [← List.enum_map_snd (List.insertionSort (scoreGE weights) recs)] at hs
      exact (List.pairwise_map).mp hs
    simp only [prioritize_recommendations]
    rw [List.pairwise_map]
    exact he.imp (fun hab => hab)
  · simp only [prioritize_recommendations, List.map_map]
    rw [show ((fun p : PrioritizedRec => p.priority_rank) ∘ fun p : ℕ × Recommendation =>
          (⟨p.2, p.1 + 1, calculate_priority_score weights p.2⟩ : PrioritizedRec))
        = (fun i => i + 1) ∘ Prod.fst from rfl]
    rw [← List.map_map, List.enum_map_fst, List.length_insertionSort, List.range_eq_range']
    rw [show List.range' 1 recs.length = List.range' (0 + 1) recs.length from rfl]
    rw [← List.map_add_range' 1 0 recs.length]
    simp [Nat.add_comm]
  · intro s
    rw [hbase]
    exact insertionSort_filter_of_ties (scoreGE weights) recs _
      (fun a b ha hb => by
        simp only [decide_eq_true_eq] at ha hb
        unfold scoreGE
        rw [ha, hb])

/-! ### Claim C8 -/

/-- C8: constraint filtering is a pure per-candidate predicate over the
impact map — a candidate appears in the filtered list exactly when it
is an input candidate passing every enforced numeric check of the
selected strategy's constraint table — and under the
`energy_efficient` strategy (whose `min_energy_savings` constraint is
50) every recommendation surviving the filter has an
`energy_savings` impact of at least 50. -/
theorem claim8_strategy_constraints (recs : List Recommendation) (c : Dict)
    (r : Recommendation) :
    (r ∈ apply_strategy_constraints recs c ↔ (r ∈ recs ∧ rec_valid c r = true))
  ∧ ((apply_strategy_constraints recs (strategyConstraints "energy_efficient")).all
      (fun q => decide ((50 : ℚ) ≤ nget q.impact "energy_savings" 0)) = true) := by
  constructor
  · simp [apply_strategy_constraints, List.mem_filter]
  · rw [List.all_eq_true]
    intro q hq
    have hv := (List.mem_filter.mp hq).2
    have hc : strategyConstraints "energy_efficient"
        = [("max_efficiency_decrease", Value.vNum (1/100)),
           ("min_energy_savings", Value.vNum 50)] := rfl
    rw [hc] at hv
    unfold rec_valid at hv
    rw [show cNum [("max_efficiency_decrease", Value.vNum (1/100)),
          ("min_energy_savings", Value.vNum 50)] "min_energy_savings" = (50 : ℚ) from rfl] at hv
    simp only [hasKey, dictFind] at hv
    norm_num at hv
    simp only [decide_eq_true_eq]
    exact hv.2

/-- Witness for C8: under the `energy_efficient` constraints, a
candidate with `energy_savings = 60` survives the filter while the
whole surviving list satisfies the 50 kWh floor. -/
theorem claim8_witness :
    (⟨"peak_shaving", "energy", "Peak Demand Management",
      [("energy_savings", 60)], "high", 24, 2000, "medium"⟩ : Recommendation)
      ∈ apply_strategy_constraints
          [⟨"flow_optimization", "efficiency", "Flow Rate Optimization",
            [("energy_savings", 20)], "low", 1, 0, "low"⟩,
           ⟨"peak_shaving", "energy", "Peak Demand Management",
            [("energy_savings", 60)], "high", 24, 2000, "medium"⟩]
          (strategyConstraints "energy_efficient")
  ∧ (apply_strategy_constraints
        [⟨"flow_optimization", "efficiency", "Flow Rate Optimization",
          [("energy_savings", 20)], "low", 1, 0, "low"⟩,
         ⟨"peak_shaving", "energy", "Peak Demand Management",
          [("energy_savings", 60)], "high", 24, 2000, "medium"⟩]
        (strategyConstraints "energy_efficient")).all
      (fun q => decide ((50 : ℚ) ≤ nget q.impact "energy_savings" 0)) = true := by
  refine ⟨(claim8_strategy_constraints _ _ _).1.mpr ⟨by simp, ?_⟩,
    (claim8_strategy_constraints
      [⟨"flow_optimization", "efficiency", "Flow Rate Optimization",
        [("energy_savings", 20)], "low", 1, 0, "low"⟩,
       ⟨"peak_shaving", "energy", "Peak Demand Management",
        [("energy_savings", 60)], "high", 24, 2000, "medium"⟩]
      (strategyConstraints "energy_efficient")
      ⟨"peak_shaving", "energy", "Peak Demand Management",
       [("energy_savings", 60)], "high", 24, 2000, "medium"⟩).2⟩
  rw [show strategyConstraints "energy_efficient"
      = [("max_efficiency_decrease", Value.vNum (1/100)),
         ("min_energy_savings", Value.vNum 50)] from rfl]
  unfold rec_valid
  rw [show hasKey [("max_efficiency_decrease", Value.vNum (1/100)),
        ("min_energy_savings", Value.vNum 50)] "max_energy_increase" = false from rfl,
      show hasKey [("max_efficiency_decrease", Value.vNum (1/100)),
        ("min_energy_savings", Value.vNum 50)] "min_efficiency_gain" = false from rfl,
      show hasKey [("max_efficiency_decrease", Value.vNum (1/100)),
        ("min_energy_savings", Value.vNum 50)] "max_efficiency_decrease" = true from rfl,
      show hasKey [("max_efficiency_decrease", Value.vNum (1/100)),
        ("min_energy_savings", Value.vNum 50)] "min_energy_savings" = true from rfl,
      show cNum [("max_efficiency_decrease", Value.vNum (1/100)),
        ("min_energy_savings", Value.vNum 50)] "max_efficiency_decrease" = (1/100 : ℚ) from rfl,
      show cNum [("max_efficiency_decrease", Value.vNum (1/100)),
        ("min_energy_savings", Value.vNum 50)] "min_energy_savings" = (50 : ℚ) from rfl,
      show nget [("energy_savings", (60 : ℚ))] "efficiency_gain" 0 = (0 : ℚ) from rfl,
      show nget [("energy_savings", (60 : ℚ))] "energy_savings" 0 = (60 : ℚ) from rfl]
  norm_num

/-- Reading a slot of the gather result from the completion log: as
long as the task's index was scheduled, its recorded outcome is found,
regardless of where in the schedule it completed. -/
theorem findLog_completionLog (task : ℕ → Except String Dict) (sched : List ℕ) (i : ℕ)
    (hi : i ∈ sched) : findLog (completionLog task sched) i = task i := by
  induction sched with
  | nil => cases hi
  | cons j rest ih =>
    by_cases hj : j = i
    · subst hj
      simp [findLog, completionLog]
    · rw [show completionLog task (j :: rest) = (j, task j) :: completionLog task rest from rfl]
      unfold findLog
      rw [List.find?_cons_of_neg _ (by simpa using hj)]
      rcases List.mem_cons.mp hi with h1 | h2
      · exact absurd h1.symm hj
      · simpa [findLog] using ih h2

/-- With any schedule that is a permutation of the task indices, the
batch result is the canonical in-input-order assembly. -/
theorem get_batch_predictions_canonical (comprehensive : Value → Except String Dict)
    (now : String) (units_data : List Dict) (sched : List ℕ)
    (hs : sched.Perm (List.range units_data.length)) :
    get_batch_predictions comprehensive now units_data sched
      = (List.range units_data.length).map (fun i => processBatchResult now units_data i
          (comprehensive (pyGet (units_data.getD i []) "sensor_data" (.vDict [])))) := by
  unfold get_batch_predictions
  apply List.map_congr_left
  intro i hi
  rw [findLog_completionLog]
  exact hs.mem_iff.mpr hi

/-- With any schedule that is a permutation of the task indices, the
network optimization returns the canonical in-input-order assembly. -/
theorem optimize_network_canonical (opt : Value → Value → String → Except String Dict)
    (agg : List Dict → Dict) (now strategy : String) (net : List Dict)
    (args : List (Value × Value)) (sched : List ℕ) (elapsed : ℚ)
    (hargs : networkArgs net = .ok args)
    (hs : sched.Perm (List.range args.length)) :
    optimize_network opt agg now strategy net sched elapsed
      = .ok (networkResult opt agg now strategy net args elapsed) := by
  have hres : (List.range args.length).map
        (fun i => findLog (completionLog (fun j =>
          opt (args.getD j (.vNull, .vNull)).1 (args.getD j (.vNull, .vNull)).2 strategy)
          sched) i)
      = (List.range args.length).map (fun i =>
          opt (args.getD i (.vNull, .vNull)).1 (args.getD i (.vNull, .vNull)).2 strategy) := by
    apply List.map_congr_left
    intro i hi
    rw [findLog_completionLog]
    exact hs.mem_iff.mpr hi
  unfold optimize_network
  rw [hargs]
  show Except.ok _ = _
  rw [networkResult]
  simp only [hres]

/-! ### Claim C2 -/

/-- C2 (counterexample): an exception can escape `optimize_network`.
With a single unit input lacking the `unit_id` key, the eager argument
extraction in the task-creation loop raises `KeyError: 'unit_id'`,
which escapes the network call before any unit is processed — even
though the per-unit optimizer itself (here, one that always succeeds)
never raises. -/
theorem claim2_counterexample :
    optimize_network (fun _ _ _ => .ok []) (fun _ => []) "t" "balanced"
        [[("sensor_data", .vDict [])]] [0] 0
      = .error "KeyError: 'unit_id'" := rfl

/-- C2 (amended): per-unit failure capture, order preservation and
schedule independence hold for `get_batch_predictions` on all inputs,
and for `optimize_network` provided every unit input contains the
`unit_id` and `sensor_data` keys (the extraction `networkArgs`
succeeds): each batch slot is the processed outcome of its own unit's
task, in input order, independent of the completion schedule; a
failing unit yields the `{unit_id, success: false, error, timestamp}`
record; the network call returns successfully, assembling successes
and `{unit_id, error}` failure records in input order. -/
theorem claim2_batch_isolation (comprehensive : Value → Except String Dict)
    (opt : Value → Value → String → Except String Dict) (agg : List Dict → Dict)
    (now strategy : String) (units_data net : List Dict) (sched sched2 : List ℕ)
    (elapsed : ℚ) (args : List (Value × Value))
    (hsched : sched.Perm (List.range units_data.length))
    (hargs : networkArgs net = .ok args)
    (hsched2 : sched2.Perm (List.range args.length)) :
    get_batch_predictions comprehensive now units_data sched
      = (List.range units_data.length).map (fun i => processBatchResult now units_data i
          (comprehensive (pyGet (units_data.getD i []) "sensor_data" (.vDict []))))
  ∧ (∀ i e, comprehensive (pyGet (units_data.getD i []) "sensor_data" (.vDict [])) = .error e →
      processBatchResult now units_data i
          (comprehensive (pyGet (units_data.getD i []) "sensor_data" (.vDict [])))
        = [("unit_id", pyGet (units_data.getD i []) "unit_id" (.vStr ("unit_" ++ toString i))),
           ("success", .vBool false), ("error", .vStr e), ("timestamp", .vStr now)])
  ∧ optimize_network opt agg now strategy net sched2 elapsed
      = .ok (networkResult opt agg now strategy net args elapsed)
  ∧ isOkE (optimize_network opt agg now strategy net sched2 elapsed) = true := by
  have hnet := optimize_network_canonical opt agg now strategy net args sched2 elapsed
    hargs hsched2
  refine ⟨get_batch_predictions_canonical comprehensive now units_data sched hsched,
    ?_, hnet, ?_⟩
  · intro i e he
    unfold processBatchResult
    rw [he]
  · rw [hnet]
    rfl

/-- Witness for C2 at concrete inputs: a one-unit batch whose task
fails is captured as a per-unit failure record, and a one-unit network
whose inputs carry both keys completes without an escaping
exception. -/
theorem claim2_witness :
    get_batch_predictions (fun _ => .error "boom") "t"
        [[("unit_id", .vStr "u1"), ("sensor_data", .vDict [])]] [0]
      = [[("unit_id", .vStr "u1"), ("success", .vBool false), ("error", .vStr "boom"),
          ("timestamp", .vStr "t")]]
  ∧ isOkE (optimize_network (fun _ _ _ => .ok []) (fun _ => []) "t" "balanced"
      [[("unit_id", .vStr "u2"), ("sensor_data", .vDict [])]] [0] 0) = true := by
  have h := claim2_batch_isolation (fun _ => .error "boom") (fun _ _ _ => .ok [])
    (fun _ => []) "t" "balanced"
    [[("unit_id", .vStr "u1"), ("sensor_data", .vDict [])]]
    [[("unit_id", .vStr "u2"), ("sensor_data", .vDict [])]]
    [0] [0] 0 [(.vStr "u2", .vDict [])]
    (by decide) rfl (by decide)
  refine ⟨?_, h.2.2.2⟩
  rw [h.1]
  rfl
